import Mathlib

/-!
Verification of the model-assembly and diagnostics logic of the
KAN-for-ICH repository (files `BASIC_model/VGG16.py` and
`KAN_model/DenseNetKAN.py`).

The embedding follows the Python source closely:

* a parameter (`torch.nn.Parameter`) is a named tensor carrying its element
  count (`numel`/`nelement`), its trainability flag (`requires_grad`) and its
  per-element byte width (`element_size`);
* a model, for the diagnostics utilities, is just its list of named
  parameters (and, for the size estimate, its list of buffers);
* the external backbones (torchvision VGG16 / DenseNet) are opaque
  collaborators: they are modelled by the data the wrapper code actually
  reads from them (their parameter list, all loaded with `requires_grad =
  True`, and the final linear classifier with its `in_features`);
* the external spline layer (`KANLayer`) is modelled by its constructor
  configuration, which is all the wrapper code determines;
* Python `int` arithmetic is ℤ, and the size computation (which ends in
  float division by the powers of two 1024 and 1024, exact in binary
  floating point for these magnitudes) is carried out in ℚ.
-/

namespace ICH

/-- A named model parameter as the diagnostics code observes it:
`name`, `numel()`/`nelement()`, `requires_grad`, `element_size()`. -/
structure Param where
  name : String
  numel : Nat
  requires_grad : Bool
  element_size : Nat
deriving Repr, DecidableEq

/-- An `nn.Linear(in_features, out_features)` sub-module, as read and written
by the wrapper constructors. -/
structure Linear where
  in_features : Nat
  out_features : Nat
deriving Repr, DecidableEq

/-- The named parameters of a freshly constructed `nn.Linear`: a weight of
`out_features * in_features` elements and a bias of `out_features` elements,
both trainable by default, float32 (4 bytes per element). -/
def Linear.params (pname : String) (l : Linear) : List Param :=
  [⟨pname ++ ".weight", l.out_features * l.in_features, true, 4⟩,
   ⟨pname ++ ".bias", l.out_features, true, 4⟩]

/-- `for param in module.parameters(): param.requires_grad = False` -/
def freezeAll (ps : List Param) : List Param :=
  ps.map (fun p => { p with requires_grad := false })

/-! ## Diagnostics utilities

`print_parameter_details`, `count_parameters` and `count_model_size` are
textually identical in `VGG16.py` and `DenseNetKAN.py`; they are embedded
once.  `print_parameter_details` returns nothing in Python; the embedding
returns the three aggregates it prints:
`(total_params, trainable_params, total_params - trainable_params)`. -/

/-- The aggregates printed by `print_parameter_details`: the loop adds each
numel of each parameter to `total_params` and, when `requires_grad` is set, to
`trainable_params`; the last line prints `total_params - trainable_params`. -/
def print_parameter_details (ps : List Param) : Int × Int × Int :=
  let acc := ps.foldl
    (fun (a : Int × Int) p =>
      (a.1 + (p.numel : Int),
       if p.requires_grad then a.2 + (p.numel : Int) else a.2))
    (0, 0)
  (acc.1, acc.2, acc.1 - acc.2)

/-- `sum(p.numel() for p in model.parameters() if p.requires_grad)` -/
def count_parameters (ps : List Param) : Int :=
  ((ps.filter (fun p => p.requires_grad)).map (fun p => (p.numel : Int))).sum

/-- `count_model_size`: sums `nelement() * element_size()` over parameters
and over buffers, then divides by 1024 and by 1024 again. -/
def count_model_size (params buffers : List Param) : ℚ :=
  let param_size : ℚ :=
    params.foldl (fun a p => a + (p.numel : ℚ) * (p.element_size : ℚ)) 0
  let buffer_size : ℚ :=
    buffers.foldl (fun a p => a + (p.numel : ℚ) * (p.element_size : ℚ)) 0
  (param_size + buffer_size) / 1024 / 1024

/-! Specification-side sums used to state the theorems. -/

/-- Total element count over a parameter list, as an integer. -/
def totalNumel (ps : List Param) : Int :=
  (ps.map (fun p => (p.numel : Int))).sum

/-- Element count over the trainable parameters. -/
def trainableNumel (ps : List Param) : Int :=
  ((ps.filter (fun p => p.requires_grad)).map (fun p => (p.numel : Int))).sum

/-- Element count over the frozen parameters. -/
def frozenNumel (ps : List Param) : Int :=
  ((ps.filter (fun p => !p.requires_grad)).map (fun p => (p.numel : Int))).sum

/-- Byte count `Σ numel * element_size` over a tensor list, in ℚ. -/
def paramBytes (ps : List Param) : ℚ :=
  (ps.map (fun p => (p.numel : ℚ) * (p.element_size : ℚ))).sum

/-- Total element count over a parameter list, as a rational. -/
def totalNumelQ (ps : List Param) : ℚ :=
  (ps.map (fun p => (p.numel : ℚ))).sum

/-- Modelled from the spec: `estimate_model_size_bytes` as §4.3 words it,
"(sum of parameter element-count × element byte-width) + (sum of buffer
element-count × element byte-width), converted to mebibytes by dividing by
1024² twice".  Compared against the embedded `count_model_size`. -/
def estimate_model_size_spec (params buffers : List Param) : ℚ :=
  (paramBytes params + paramBytes buffers) / 1024 ^ 2 / 1024 ^ 2

/-! ## VGG16 wrapper (`BASIC_model/VGG16.py`)

`models.vgg16(...)` is an external collaborator; the constructor reads from
it its enumerable parameters and its final classifier layer
`classifier[6]` (an `nn.Linear`).  Every parameter of the loaded network
has `requires_grad = True`. -/

/-- The data of the loaded torchvision VGG16 that the wrapper consumes:
names and element counts of the parameters outside `classifier[6]`, and the
final linear layer `classifier[6]` itself. -/
structure VGG16Backbone where
  feature_params : List (String × Nat)
  classifier6 : Linear
deriving Repr, DecidableEq

/-- Parameters of the loaded backbone outside `classifier[6]`; torchvision
loads every parameter with `requires_grad = True`, float32. -/
def VGG16Backbone.loadedParams (b : VGG16Backbone) : List Param :=
  b.feature_params.map (fun nc => ⟨nc.1, nc.2, true, 4⟩)

/-- The assembled `VGG16` wrapper module: the (possibly frozen) backbone
parameters outside the replaced layer, and the new head `classifier[6]`. -/
structure VGG16Model where
  backbone_part : List Param
  head : Linear
deriving Repr, DecidableEq

/-- `VGG16.__init__(num_classes, pretrained, freeze_backbone)`: load the
backbone; if `freeze_backbone`, set `requires_grad = False` on every loaded
parameter (including the original `classifier[6]`, which is then discarded);
read `classifier[6].in_features`; substitute a fresh
`nn.Linear(num_features, num_classes)` (trainable by default) for
`classifier[6]`.  `pretrained` only selects the initial weight values,
which the embedding does not track. -/
def VGG16.init (b : VGG16Backbone) (num_classes : Nat)
    (pretrained freeze_backbone : Bool) : VGG16Model :=
  let loaded := b.loadedParams
  let loaded := if freeze_backbone then freezeAll loaded else loaded
  let num_features := b.classifier6.in_features
  let _unused_weights := pretrained
  { backbone_part := loaded
    head := ⟨num_features, num_classes⟩ }

/-- `model.named_parameters()` of the assembled wrapper: the backbone
parameters followed by the weight and bias of the substituted head. -/
def VGG16Model.parameters (m : VGG16Model) : List Param :=
  m.backbone_part ++ m.head.params "vgg16.classifier.6"

/-! ## DenseNetKAN wrapper (`KAN_model/DenseNetKAN.py`)

The spline layer `KANLayer` comes from the external `version.kan.kan`
package; the wrapper only determines its constructor configuration, which
is what the embedding records.  The base activation passed is
`torch.nn.SiLU()`. -/

/-- The base activation object handed to the spline layers. -/
inductive BaseFun
  | silu
deriving Repr, DecidableEq

/-- The constructor configuration of an external `KANLayer`, in the order
the wrapper passes the arguments.  Float literals are embedded as their
exact rational values (0.1 = 1/10, 0.02 = 1/50). -/
structure KANLayer where
  in_dim : Nat
  out_dim : Nat
  num : Nat
  k : Nat
  noise_scale : ℚ
  scale_base_mu : ℚ
  scale_base_sigma : ℚ
  scale_sp : ℚ
  base_fun : BaseFun
  grid_eps : ℚ
  grid_range : List ℚ
  sp_trainable : Bool
  sb_trainable : Bool
  device : String
deriving Repr, DecidableEq

/-- The data the wrapper reads from a loaded torchvision DenseNet: its
parameters outside the classifier, and the classifier `nn.Linear` (whose
`in_features` is the feature width). -/
structure DenseNetBackbone where
  feature_params : List (String × Nat)
  classifier : Linear
deriving Repr, DecidableEq

/-- Parameters of the loaded DenseNet outside its classifier; torchvision
loads every parameter with `requires_grad = True`, float32. -/
def DenseNetBackbone.loadedParams (b : DenseNetBackbone) : List Param :=
  b.feature_params.map (fun nc => ⟨nc.1, nc.2, true, 4⟩)

/-- The assembled `DenseNetKAN` module.  `__init__` assigns exactly three
sub-module attributes on `self`: `densenet` (whose classifier has been
replaced by `nn.Identity()`, so its remaining parameters are the feature
parameters), `kan_layer1` and `kan_layer2`. -/
structure DenseNetKANModel where
  densenet_params : List Param
  kan_layer1 : KANLayer
  kan_layer2 : KANLayer
deriving Repr, DecidableEq

/-- The body of `DenseNetKAN.__init__` after the version dispatch succeeded
and produced the loaded backbone `b`: freeze the DenseNet parameters if
requested (the original classifier parameters are frozen too, but the
classifier is then replaced by `nn.Identity()`, which has no parameters);
read `classifier.in_features`; default `hidden_dims` to `[512, 256]` when
`None` (the local variable is never consulted afterwards); build
`kan_layer1` with the supplied `kan_num_grids`/`kan_spline_order` mapping
`num_features → 256`, and `kan_layer2` with the literals `num=5`, `k=3`
mapping `256 → num_classes`. -/
def DenseNetKAN.build (b : DenseNetBackbone) (hidden_dims : Option (List Nat))
    (num_classes : Nat) (freeze_backbone : Bool)
    (kan_num_grids kan_spline_order : Nat) : DenseNetKANModel :=
  let dn := b.loadedParams
  let dn := if freeze_backbone then freezeAll dn else dn
  let num_features := b.classifier.in_features
  let _hd := hidden_dims.getD [512, 256]
  { densenet_params := dn
    kan_layer1 :=
      ⟨num_features, 256, kan_num_grids, kan_spline_order,
       1/10, 0, 1, 1, BaseFun.silu, 1/50, [-1, 1], true, true, "cpu"⟩
    kan_layer2 :=
      ⟨256, num_classes, 5, 3,
       1/10, 0, 1, 1, BaseFun.silu, 1/50, [-1, 1], true, true, "cpu"⟩ }

/-- `DenseNetKAN.__init__`: the version dispatch comes first — before any
sub-module is assigned — so an unrecognized `densenet_version` raises
`ValueError(f"Unsupported DenseNet version: {densenet_version}")` with
nothing constructed.  `env` is the external torchvision loading facility,
giving the loaded network for each recognized version string; `pretrained`
only selects initial weight values, which the embedding does not track. -/
def DenseNetKAN.init (env : String → DenseNetBackbone)
    (hidden_dims : Option (List Nat)) (num_classes : Nat)
    (pretrained freeze_backbone : Bool) (densenet_version : String)
    (kan_num_grids kan_spline_order : Nat) :
    Except String DenseNetKANModel :=
  let _unused_weights := pretrained
  if densenet_version = "121" then
    Except.ok (DenseNetKAN.build (env "121") hidden_dims num_classes
      freeze_backbone kan_num_grids kan_spline_order)
  else if densenet_version = "161" then
    Except.ok (DenseNetKAN.build (env "161") hidden_dims num_classes
      freeze_backbone kan_num_grids kan_spline_order)
  else if densenet_version = "169" then
    Except.ok (DenseNetKAN.build (env "169") hidden_dims num_classes
      freeze_backbone kan_num_grids kan_spline_order)
  else if densenet_version = "201" then
    Except.ok (DenseNetKAN.build (env "201") hidden_dims num_classes
      freeze_backbone kan_num_grids kan_spline_order)
  else
    Except.error ("Unsupported DenseNet version: " ++ densenet_version)

/-- The attribute names that `DenseNetKAN.__init__` assigns on `self`. -/
def DenseNetKANModel.attr_names : List String :=
  ["densenet", "kan_layer1", "kan_layer2"]

/-- `DenseNetKAN.forward(x)`.  Its first statement is
`x = self.convnext(x)`: Python resolves the attribute name on `self`
before any call, and `__init__` assigned only `densenet`, `kan_layer1` and
`kan_layer2`, so the lookup of `convnext` raises `AttributeError` on every
invocation.  The `then` branch spells out the pipeline that would run if
the name resolved to the assigned backbone: backbone feature extraction,
`x.view(x.size(0), -1)` flattening, then each `KANLayer` call keeping only
component 0 of its returned 4-tuple `(y, preacts, postacts, postspline)`.
The tensor computations themselves are external (`densenetEval`,
`kanEval`, `flattenView`). -/
def DenseNetKANModel.forward {T : Type} (densenetEval : List Param → T → T)
    (kanEval : KANLayer → T → T × T × T × T) (flattenView : T → T)
    (m : DenseNetKANModel) (x : T) : Except String T :=
  if "convnext" ∈ DenseNetKANModel.attr_names then
    let x := densenetEval m.densenet_params x
    let x := flattenView x
    let output_kan1 := kanEval m.kan_layer1 x
    let x := output_kan1.1
    let output_kan2 := kanEval m.kan_layer2 x
    let x := output_kan2.1
    Except.ok x
  else
    Except.error "AttributeError: DenseNetKAN object has no attribute convnext"

/-- A sample external loading environment used to instantiate witnesses:
torchvision densenet121 has classifier `nn.Linear(1024, 1000)`. -/
def envExample : String → DenseNetBackbone :=
  fun _ => ⟨[("features.conv0.weight", 9408)], ⟨1024, 1000⟩⟩

/-! ## Helper lemmas -/

/-- Unfolding the accumulator of the `print_parameter_details` loop. -/
lemma ppd_foldl (ps : List Param) (a : Int × Int) :
    ps.foldl
      (fun (a : Int × Int) p =>
        (a.1 + (p.numel : Int),
         if p.requires_grad then a.2 + (p.numel : Int) else a.2))
      a
    = (a.1 + totalNumel ps, a.2 + trainableNumel ps) := by
  induction ps generalizing a with
  | nil => simp [totalNumel, trainableNumel]
  | cons p ps ih =>
      by_cases h : p.requires_grad <;>
        simp [List.foldl_cons, ih, totalNumel, trainableNumel, h, add_assoc]

/-- The printed aggregates of `print_parameter_details` are the total, the
trainable and the frozen element counts. -/
lemma print_parameter_details_eq (ps : List Param) :
    print_parameter_details ps
      = (totalNumel ps, trainableNumel ps, totalNumel ps - trainableNumel ps) := by
  simp [print_parameter_details, ppd_foldl]

/-- Trainable and frozen element counts partition the total. -/
lemma trainable_add_frozen (ps : List Param) :
    trainableNumel ps + frozenNumel ps = totalNumel ps := by
  induction ps with
  | nil => simp [totalNumel, trainableNumel, frozenNumel]
  | cons p ps ih =>
      by_cases h : p.requires_grad <;>
        simp [totalNumel, trainableNumel, frozenNumel, h] at ih ⊢ <;>
        omega

/-- Unfolding the byte-count accumulator of `count_model_size`. -/
lemma bytes_foldl (ps : List Param) (a : ℚ) :
    ps.foldl (fun a p => a + (p.numel : ℚ) * (p.element_size : ℚ)) a
      = a + paramBytes ps := by
  induction ps generalizing a with
  | nil => simp [paramBytes]
  | cons p ps ih => simp [List.foldl_cons, ih, paramBytes]; ring

/-- `count_model_size` in closed form. -/
lemma count_model_size_eq (params buffers : List Param) :
    count_model_size params buffers
      = (paramBytes params + paramBytes buffers) / 1024 / 1024 := by
  simp [count_model_size, bytes_foldl]

/-- Freezing clears every trainability flag. -/
lemma freezeAll_requires_grad (ps : List Param) :
    (freezeAll ps).all (fun p => !p.requires_grad) = true := by
  simp [freezeAll, List.all_eq_true]

/-- A frozen parameter list contributes no trainable parameters. -/
lemma count_parameters_freezeAll (ps : List Param) :
    count_parameters (freezeAll ps) = 0 := by
  induction ps with
  | nil => rfl
  | cons p ps ih => simpa [freezeAll, count_parameters] using ih

/-- Widening every element to twice the byte-width (e.g. float32 →
float64), leaving counts and flags unchanged. -/
def doubleElementSize (p : Param) : Param :=
  { p with element_size := 2 * p.element_size }

/-- `paramBytes` of the empty list. -/
lemma paramBytes_nil : paramBytes [] = 0 := rfl

/-- With a uniform byte-width, the byte count factors as count × width. -/
lemma paramBytes_uniform (ps : List Param) (b : Nat)
    (h : ∀ p ∈ ps, p.element_size = b) :
    paramBytes ps = totalNumelQ ps * (b : ℚ) := by
  induction ps with
  | nil => simp [paramBytes, totalNumelQ]
  | cons p ps ih =>
      have hp : p.element_size = b := h p (by simp)
      have ht : ∀ q ∈ ps, q.element_size = b := fun q hq => h q (by simp [hq])
      have ihs := ih ht
      simp [paramBytes, totalNumelQ, hp] at ihs ⊢
      rw [ihs]
      ring

/-- Doubling every byte-width doubles the byte count. -/
lemma paramBytes_double (ps : List Param) :
    paramBytes (ps.map doubleElementSize) = 2 * paramBytes ps := by
  induction ps with
  | nil => simp [paramBytes]
  | cons p ps ih =>
      simp [paramBytes, doubleElementSize] at ih ⊢
      rw [ih]
      ring

/-- A concrete two-parameter model used to instantiate witnesses. -/
def psExample : List Param :=
  [⟨"classifier.weight", 3, true, 4⟩, ⟨"classifier.bias", 1, false, 4⟩]

/-- One parameter of a single element of byte-width 1024² = 1048576. -/
def psMiB : List Param := [⟨"weight", 1, true, 1048576⟩]

/-! ## Claim theorems -/

/-- C1: the claim says `DenseNetKAN.forward` computes backbone features,
flattens, and applies the two spline layers keeping only their primary
outputs.  The code instead begins with `x = self.convnext(x)`, while
`__init__` assigned the backbone to `self.densenet`; attribute resolution
of `convnext` therefore raises `AttributeError` on every input, before any
computation.  This theorem evaluates the embedded `forward` at an
arbitrary input: it always returns the attribute error. -/
theorem forward_raises_attribute_error {T : Type}
    (densenetEval : List Param → T → T)
    (kanEval : KANLayer → T → T × T × T × T) (flattenView : T → T)
    (m : DenseNetKANModel) (x : T) :
    DenseNetKANModel.forward densenetEval kanEval flattenView m x
      = Except.error
          "AttributeError: DenseNetKAN object has no attribute convnext" :=
  rfl

/-- C2: for every backbone version selector outside
`{"121", "161", "169", "201"}`, `DenseNetKAN.__init__` raises the
configuration error naming the invalid selector; the dispatch precedes
every sub-module assignment, so no backbone or spline layer is built —
the embedded construction returns the error and no model value. -/
theorem unsupported_version_fails (env : String → DenseNetBackbone)
    (hidden_dims : Option (List Nat)) (num_classes : Nat)
    (pretrained freeze_backbone : Bool) (v : String)
    (kan_num_grids kan_spline_order : Nat)
    (h : v ≠ "121" ∧ v ≠ "161" ∧ v ≠ "169" ∧ v ≠ "201") :
    DenseNetKAN.init env hidden_dims num_classes pretrained freeze_backbone
        v kan_num_grids kan_spline_order
      = Except.error ("Unsupported DenseNet version: " ++ v) := by
  obtain ⟨h1, h2, h3, h4⟩ := h
  simp [DenseNetKAN.init, h1, h2, h3, h4]

/-- Witness for C2 at the concrete invalid selector `"300"`. -/
theorem unsupported_version_fails_witness :
    ("300" ≠ "121" ∧ "300" ≠ "161" ∧ "300" ≠ "169" ∧ "300" ≠ "201")
    ∧ DenseNetKAN.init envExample none 11 false true "300" 5 3
        = Except.error ("Unsupported DenseNet version: " ++ "300") :=
  ⟨by decide,
   unsupported_version_fails envExample none 11 false true "300" 5 3
     (by decide)⟩

/-- C3 counterexample: the claim says the supplied grid-interval count and
spline order are applied to both spline layers.  Constructing with
`kan_num_grids = 7` and `kan_spline_order = 4` yields a second layer with
`num = 5`, `k = 3` — the hardcoded literals, not the supplied values. -/
theorem kan2_hyperparams_cex :
    (DenseNetKAN.init envExample none 11 false true "121" 7 4).map
        (fun m => (m.kan_layer2.num, m.kan_layer2.k))
      = Except.ok (5, 3)
    ∧ ((5 : Nat), (3 : Nat)) ≠ ((7 : Nat), (4 : Nat)) :=
  ⟨rfl, by decide⟩

/-- C3 (amended): for every recognized version, layer 1 maps the backbone
feature width to 256 and is configured with the supplied grid-interval
count and spline order; layer 2 maps 256 to the class count but is
configured with the fixed literals `num = 5`, `k = 3`; the remaining
hyperparameters are the same constants on both layers. -/
theorem kan_layers_configuration (env : String → DenseNetBackbone)
    (hidden_dims : Option (List Nat)) (num_classes : Nat)
    (pretrained freeze_backbone : Bool) (v : String) (g k : Nat)
    (h : v = "121" ∨ v = "161" ∨ v = "169" ∨ v = "201") :
    (DenseNetKAN.init env hidden_dims num_classes pretrained freeze_backbone
        v g k).map (fun m => (m.kan_layer1, m.kan_layer2))
      = Except.ok
          (⟨(env v).classifier.in_features, 256, g, k,
            1/10, 0, 1, 1, BaseFun.silu, 1/50, [-1, 1], true, true, "cpu"⟩,
           ⟨256, num_classes, 5, 3,
            1/10, 0, 1, 1, BaseFun.silu, 1/50, [-1, 1], true, true, "cpu"⟩) := by
  rcases h with h | h | h | h <;> subst h <;> rfl

/-- Witness for C3 (amended) at version `"121"` with the loading
environment `envExample` (feature width 1024). -/
theorem kan_layers_configuration_witness :
    ("121" = "121" ∨ "121" = "161" ∨ "121" = "169" ∨ "121" = "201")
    ∧ (DenseNetKAN.init envExample (some [512, 256]) 11 false true
          "121" 5 3).map (fun m => (m.kan_layer1, m.kan_layer2))
        = Except.ok
            (⟨1024, 256, 5, 3,
              1/10, 0, 1, 1, BaseFun.silu, 1/50, [-1, 1], true, true, "cpu"⟩,
             ⟨256, 11, 5, 3,
              1/10, 0, 1, 1, BaseFun.silu, 1/50, [-1, 1], true, true, "cpu"⟩) :=
  ⟨Or.inl rfl,
   kan_layers_configuration envExample (some [512, 256]) 11 false true
     "121" 5 3 (Or.inl rfl)⟩

/-- C4: for every supplied hidden-width sequence (including the default,
`hidden_dims = none`), the intermediate width between the two spline
layers is 256: layer 1 has `out_dim = 256` and layer 2 has `in_dim = 256`,
regardless of the sequence. -/
theorem intermediate_width_hardcoded (env : String → DenseNetBackbone)
    (hidden_dims : Option (List Nat)) (num_classes : Nat)
    (pretrained freeze_backbone : Bool) (v : String) (g k : Nat)
    (h : v = "121" ∨ v = "161" ∨ v = "169" ∨ v = "201") :
    (DenseNetKAN.init env hidden_dims num_classes pretrained freeze_backbone
        v g k).map (fun m => (m.kan_layer1.out_dim, m.kan_layer2.in_dim))
      = Except.ok (256, 256) := by
  rcases h with h | h | h | h <;> subst h <;> rfl

/-- Witness for C4 at a non-default hidden-width sequence `[1024, 64]`. -/
theorem intermediate_width_hardcoded_witness :
    ("121" = "121" ∨ "121" = "161" ∨ "121" = "169" ∨ "121" = "201")
    ∧ (DenseNetKAN.init envExample (some [1024, 64]) 11 false true
          "121" 5 3).map
        (fun m => (m.kan_layer1.out_dim, m.kan_layer2.in_dim))
        = Except.ok (256, 256) :=
  ⟨Or.inl rfl,
   intermediate_width_hardcoded envExample (some [1024, 64]) 11 false true
     "121" 5 3 (Or.inl rfl)⟩

/-- C5: constructing the VGG16 wrapper with class count 20,
`pretrained = False`, `freeze_backbone = True` yields a head with exactly
20 output units whose parameters are trainable, while every parameter
outside the replaced layer is frozen, so `count_parameters` over the
non-head parameters is 0. -/
theorem frozen_backbone_trainable_head_only (b : VGG16Backbone) :
    (VGG16.init b 20 false true).head.out_features = 20
    ∧ ((VGG16.init b 20 false true).head.params "vgg16.classifier.6").all
        (fun p => p.requires_grad) = true
    ∧ ((VGG16.init b 20 false true).backbone_part).all
        (fun p => !p.requires_grad) = true
    ∧ count_parameters (VGG16.init b 20 false true).backbone_part = 0 := by
  refine ⟨rfl, rfl, ?_, ?_⟩
  · simpa [VGG16.init] using freezeAll_requires_grad b.loadedParams
  · simpa [VGG16.init] using count_parameters_freezeAll b.loadedParams

/-- C6: `count_parameters` equals the trainable total tallied (and
printed) by `print_parameter_details`. -/
theorem count_parameters_eq_reported_trainable (ps : List Param) :
    count_parameters ps = (print_parameter_details ps).2.1 := by
  simp [print_parameter_details_eq, count_parameters, trainableNumel]

/-- C7: with no buffers and a uniform element byte-width `b`, the size
estimate in mebibytes equals (total element count × b) / 1024², and
doubling the byte-width of every element exactly doubles the estimate. -/
theorem model_size_formula_and_scaling (ps : List Param) (b : Nat)
    (h : ∀ p ∈ ps, p.element_size = b) :
    count_model_size ps [] = totalNumelQ ps * (b : ℚ) / 1024 ^ 2
    ∧ count_model_size (ps.map doubleElementSize) []
        = 2 * count_model_size ps [] := by
  constructor
  · rw [count_model_size_eq, paramBytes_uniform ps b h, paramBytes_nil]
    ring
  · rw [count_model_size_eq, count_model_size_eq, paramBytes_double,
        paramBytes_nil]
    ring

/-- Witness for C7: two float32 parameters (byte-width 4). -/
theorem model_size_formula_and_scaling_witness :
    (∀ p ∈ psExample, p.element_size = 4)
    ∧ (count_model_size psExample [] = totalNumelQ psExample * (4 : ℚ) / 1024 ^ 2
       ∧ count_model_size (psExample.map doubleElementSize) []
           = 2 * count_model_size psExample []) :=
  ⟨by decide, model_size_formula_and_scaling psExample 4 (by decide)⟩

/-- C8 counterexample: the claim converts bytes to mebibytes "by dividing
by 1024² twice", i.e. by 1024⁴.  For one parameter of 1 element of
byte-width 1048576 = 1024², the code returns 1 MiB while the claimed
formula gives 1/1048576 — they differ. -/
theorem size_division_cex :
    count_model_size psMiB [] = 1
    ∧ estimate_model_size_spec psMiB [] = 1 / 1048576
    ∧ count_model_size psMiB [] ≠ estimate_model_size_spec psMiB [] := by
  have h1 : count_model_size psMiB [] = 1 := by
    rw [count_model_size_eq]
    simp [paramBytes, psMiB]
    norm_num
  have h2 : estimate_model_size_spec psMiB [] = 1 / 1048576 := by
    simp [estimate_model_size_spec, paramBytes, psMiB]
    norm_num
  refine ⟨h1, h2, ?_⟩
  rw [h1, h2]
  norm_num

/-- C8 (amended): `count_model_size` returns (parameter bytes + buffer
bytes) divided by 1024 twice — that is, divided by 1024² once, the
bytes-to-mebibytes conversion. -/
theorem model_size_is_bytes_div_1024_sq (params buffers : List Param) :
    count_model_size params buffers
      = (paramBytes params + paramBytes buffers) / 1024 ^ 2 := by
  rw [count_model_size_eq, div_div]
  norm_num

/-- C9: the aggregates tallied by `print_parameter_details` satisfy
T + F = N: the total is the summed element count, the trainable tally T is
the trainable element count, the reported frozen count F is total minus
trainable, equals the frozen element count, and T + F = N. -/
theorem trainable_plus_frozen_eq_total (ps : List Param) :
    (print_parameter_details ps).1 = totalNumel ps
    ∧ (print_parameter_details ps).2.1 = trainableNumel ps
    ∧ (print_parameter_details ps).2.2 = totalNumel ps - trainableNumel ps
    ∧ (print_parameter_details ps).2.1 + (print_parameter_details ps).2.2
        = (print_parameter_details ps).1
    ∧ (print_parameter_details ps).2.2 = frozenNumel ps := by
  have h := trainable_add_frozen ps
  simp [print_parameter_details_eq]
  omega

/-- C10: constructing the VGG16 wrapper with `freeze_backbone = False`
touches no trainability flag: every parameter of the resulting model —
the loaded backbone parameters and the substituted head — is trainable. -/
theorem unfrozen_all_trainable (b : VGG16Backbone) (num_classes : Nat)
    (pretrained : Bool) :
    ((VGG16.init b num_classes pretrained false).parameters).all
        (fun p => p.requires_grad) = true := by
  simp [VGG16.init, VGG16Model.parameters, VGG16Backbone.loadedParams,
        Linear.params, List.all_eq_true, List.mem_map]
  intro p n c _ hp
  subst hp
  rfl

end ICH
